import Mathlib

/-!
Verification of the link-rewriting utility (`src/scripts/fix-href.js`, and its
parametrized variant) and of the testimonial carousel controller
(`TestimonialSlider`) of the aktiv-html repository.

Strings are embedded as `List Char`.  JavaScript's
`href.substring(0, href.indexOf("#"))` — the part of the string strictly
before the first `'#'` — is `List.takeWhile (· != '#')`, and
`href.substring(href.indexOf("#"))` — the suffix starting at the first `'#'` —
is `List.dropWhile (· != '#')`; `href.indexOf("#") !== -1` is
`href.contains '#'`; `href.includes(".html")` is contiguous-substring
containment, embedded below as `isSubstr`.
-/

namespace FixHref

/-- Does `pat` occur at the very start of `s`?  (Embeds the anchored substring
test used to define `isSubstr`.) -/
def startsWithL : List Char → List Char → Bool
  | [], _ => true
  | _ :: _, [] => false
  | p :: ps, c :: cs => p == c && startsWithL ps cs

/-- Contiguous substring containment: JavaScript `s.includes(pat)`. -/
def isSubstr (pat : List Char) : List Char → Bool
  | [] => startsWithL pat []
  | c :: cs => startsWithL pat (c :: cs) || isSubstr pat cs

/-- The characters of the extension marker `".html"`. -/
def htmlChars : List Char := ".html".data

/-- The hardcoded base path `"/src/pages"` of `fix-href.js`. -/
def basePathChars : List Char := "/src/pages".data

/-- `href.includes(".html")`, the rule-1 guard of `transformHref`. -/
def containsHtml (s : List Char) : Bool := isSubstr htmlChars s

/-- Embedding of `transformHref` from `src/scripts/fix-href.js` (lines 30–62):
skip when the href already contains `".html"`; otherwise, when a `'#'` is
present, split at the first `'#'` and rewrite the part before it
(`basePath ↦ basePath ++ "/index.html"`, otherwise append `".html"`),
re-attaching the hash suffix; with no `'#'`, rewrite the whole string the same
way. -/
def transformHrefL (href : List Char) : List Char :=
  if containsHtml href then href
  else if href.contains '#' then
    let beforeHash := href.takeWhile (fun c => c != '#')
    let afterHash := href.dropWhile (fun c => c != '#')
    if beforeHash = basePathChars then basePathChars ++ "/index.html".data ++ afterHash
    else beforeHash ++ htmlChars ++ afterHash
  else
    if href = basePathChars then basePathChars ++ "/index.html".data
    else href ++ htmlChars

/-- `transformHref` on Lean `String`s (wrapper around `transformHrefL`). -/
def transformHref (href : String) : String := ⟨transformHrefL href.data⟩

/-- Embedding of the parametrized `transformHref` variant (the file that
defines a configurable `BASE_PATH` constant), with the constant abstracted as
the parameter `bp`. -/
def transformHrefParam (bp href : List Char) : List Char :=
  if containsHtml href then href
  else if href.contains '#' then
    let beforeHash := href.takeWhile (fun c => c != '#')
    let afterHash := href.dropWhile (fun c => c != '#')
    if beforeHash = bp then bp ++ "/index.html".data ++ afterHash
    else beforeHash ++ htmlChars ++ afterHash
  else
    if href = bp then bp ++ "/index.html".data
    else href ++ htmlChars

/-- The four-rule reference definition, written from the spec's words
(section 4.1): rule 1, return unchanged when the href contains `".html"`;
rule 2, split at the first `'#'` into `beforePart` and `hashPart` (the
`hashPart` keeps the `'#'` and is empty when there is none); rules 3–4, the
rewritten base is `bp ++ "/index.html"` when `beforePart = bp` and
`beforePart ++ ".html"` otherwise; rule 5, result is the rewritten base
followed by `hashPart`. -/
def specTransform (bp href : List Char) : List Char :=
  if containsHtml href then href
  else
    let beforePart := href.takeWhile (fun c => c != '#')
    let hashPart := href.dropWhile (fun c => c != '#')
    (if beforePart = bp then bp ++ "/index.html".data else beforePart ++ htmlChars) ++ hashPart

end FixHref

namespace Slider


/-!
Embedding of the `TestimonialSlider` class.  The DOM slide collection is kept
abstract as its length `totalSlides`; `currentSlide` is an integer (a
JavaScript number holding an integer).  The host environment's timers are made
explicit: `liveTimers` is the list of live `setInterval` ids (every one of
which runs this slider's autoplay tick), `autoplayInterval` is the id the
slider stores, `nextTimerId` generates fresh ids, and `pendingSettle` records
that the `setTimeout` callback scheduled by `showSlide` (which clears
`isTransitioning` after the 800ms settle delay) has not fired yet.

JavaScript's `%` on integers is truncated remainder (`Int.tmod`), and
`x % 0` is `NaN`; an index of `NaN`, or any out-of-range index, makes
`this.slides[index]` `undefined`, so the following `.classList` access throws
a `TypeError`.  An index that may be `NaN` is an `Option Int` (`none` = NaN),
and an operation that can throw returns `Except String`.
-/

structure SliderState where
  currentSlide : Int
  totalSlides : Nat
  isTransitioning : Bool
  pendingSettle : Bool
  liveTimers : List Nat
  autoplayInterval : Option Nat
  nextTimerId : Nat
  deriving DecidableEq, Repr

/-- JavaScript index arithmetic `a % n` on the slide count: `NaN` (`none`)
when `n = 0`, else truncated remainder. -/
def jsModIdx (a : Int) (n : Nat) : Option Int :=
  if n = 0 then none else some (Int.tmod a (n : Int))

/-- Embedding of `showSlide(index)` (part of `TestimonialSlider`): return
immediately when a transition is in flight; otherwise set the transition
flag, restyle the slides (`this.slides[index].classList...` throws when
`index` is `NaN` or out of range), set `currentSlide = index`, and schedule
the settle-delay callback that will clear the flag. -/
def showSlide (index : Option Int) (s : SliderState) : Except String SliderState :=
  if s.isTransitioning then Except.ok s
  else
    match index with
    | some i =>
      if 0 ≤ i ∧ i < (s.totalSlides : Int) then
        Except.ok { s with isTransitioning := true, currentSlide := i, pendingSettle := true }
      else Except.error "TypeError: slides index out of range"
    | none => Except.error "TypeError: slides index is NaN"

/-- Embedding of `nextSlide()`: `showSlide((currentSlide + 1) % totalSlides)`. -/
def nextSlide (s : SliderState) : Except String SliderState :=
  showSlide (jsModIdx (s.currentSlide + 1) s.totalSlides) s

/-- Embedding of `prevSlide()`:
`showSlide((currentSlide - 1 + totalSlides) % totalSlides)`. -/
def prevSlide (s : SliderState) : Except String SliderState :=
  showSlide (jsModIdx (s.currentSlide - 1 + (s.totalSlides : Int)) s.totalSlides) s

/-- Embedding of `pauseAutoplay()`: when an interval id is stored, clear that
interval and null the stored handle; otherwise do nothing. -/
def pauseAutoplay (s : SliderState) : SliderState :=
  match s.autoplayInterval with
  | some id =>
    { s with liveTimers := s.liveTimers.filter (fun t => t != id), autoplayInterval := none }
  | none => s

/-- Embedding of `startAutoplay()`: first `pauseAutoplay()` (so no duplicate
intervals), then create a fresh interval whose callback is the autoplay tick,
storing its id. -/
def startAutoplay (s : SliderState) : SliderState :=
  let s2 := pauseAutoplay s
  { s2 with liveTimers := s2.liveTimers ++ [s2.nextTimerId],
            autoplayInterval := some s2.nextTimerId,
            nextTimerId := s2.nextTimerId + 1 }

/-- The body of the `setInterval` callback installed by `startAutoplay`:
advance via `nextSlide()` only when no transition is in flight. -/
def autoplayTick (s : SliderState) : Except String SliderState :=
  if s.isTransitioning then Except.ok s else nextSlide s

/-- Fire `n` autoplay ticks in sequence (stopping at a thrown error). -/
def fireTicks : Nat → SliderState → Except String SliderState
  | 0, s => Except.ok s
  | n + 1, s =>
    match autoplayTick s with
    | Except.ok s2 => fireTicks n s2
    | Except.error e => Except.error e

/-- Advance time by one autoplay interval: every live interval timer fires its
tick callback once. -/
def elapseInterval (s : SliderState) : Except String SliderState :=
  fireTicks s.liveTimers.length s

/-- The `setTimeout` callback scheduled by `showSlide` fires after the settle
delay: clear `isTransitioning` and re-enable the buttons.  (Guarded by
`pendingSettle`: the callback exists only while one is scheduled.) -/
def settleElapsed (s : SliderState) : SliderState :=
  if s.pendingSettle then { s with isTransitioning := false, pendingSettle := false } else s

/-- Embedding of `new TestimonialSlider()` on a page with `n` slides: the
constructor records the slide count, starts at slide 0 with no transition in
flight, and `init()` runs `startAutoplay()`.  It performs no check on `n`. -/
def mkSlider (n : Nat) : SliderState :=
  startAutoplay
    { currentSlide := 0, totalSlides := n, isTransitioning := false, pendingSettle := false,
      liveTimers := [], autoplayInterval := none, nextTimerId := 0 }

/-- The slide-index invariant: `currentSlide ∈ [0, totalSlides)`. -/
abbrev boundsOk (s : SliderState) : Prop :=
  0 ≤ s.currentSlide ∧ s.currentSlide < (s.totalSlides : Int)

/-- The timer invariant maintained by the controller: the live intervals are
exactly the one whose id the slider stores (none when no handle is stored). -/
abbrev timersOk (s : SliderState) : Prop :=
  s.liveTimers = (match s.autoplayInterval with | some id => [id] | none => [])

/-- A concrete mid-transition state over three slides, used by witnesses. -/
def demoTransitioning : SliderState :=
  { currentSlide := 1, totalSlides := 3, isTransitioning := true, pendingSettle := true,
    liveTimers := [0], autoplayInterval := some 0, nextTimerId := 1 }

/-- A concrete idle state over three slides, used by witnesses. -/
def demoIdle : SliderState :=
  { currentSlide := 0, totalSlides := 3, isTransitioning := false, pendingSettle := false,
    liveTimers := [0], autoplayInterval := some 0, nextTimerId := 1 }

/-- A concrete idle single-slide state, used by witnesses. -/
def demoSingle : SliderState :=
  { currentSlide := 0, totalSlides := 1, isTransitioning := false, pendingSettle := false,
    liveTimers := [0], autoplayInterval := some 0, nextTimerId := 1 }

end Slider

namespace FixHref

lemma takeWhile_eq_self_of_not_contains (href : List Char)
    (h : href.contains '#' = false) : href.takeWhile (fun c => c != '#') = href := by
  induction href with
  | nil => rfl
  | cons c cs ih =>
    rw [List.contains_cons, Bool.or_eq_false_iff] at h
    have hc : (c != '#') = true := bne_iff_ne.mpr (Ne.symm (ne_of_beq_false h.1))
    simp [List.takeWhile_cons, hc, ih h.2]

lemma dropWhile_eq_nil_of_not_contains (href : List Char)
    (h : href.contains '#' = false) : href.dropWhile (fun c => c != '#') = [] := by
  induction href with
  | nil => rfl
  | cons c cs ih =>
    rw [List.contains_cons, Bool.or_eq_false_iff] at h
    have hc : (c != '#') = true := bne_iff_ne.mpr (Ne.symm (ne_of_beq_false h.1))
    simp [List.dropWhile_cons, hc, ih h.2]

lemma transformHrefL_eq_specTransform (href : List Char) :
    transformHrefL href = specTransform basePathChars href := by
  unfold transformHrefL specTransform
  cases hhtml : containsHtml href with
  | true => simp [hhtml]
  | false =>
    cases hhash : href.contains '#' with
    | true =>
      simp only [hhtml, hhash, Bool.false_eq_true, if_false, if_true]
      split <;> simp [List.append_assoc]
    | false =>
      simp only [hhtml, hhash, Bool.false_eq_true, if_false,
        takeWhile_eq_self_of_not_contains href hhash,
        dropWhile_eq_nil_of_not_contains href hhash, List.append_nil]

/-- Claim C1: `transformHref` agrees with the four-rule reference definition
(at base path `"/src/pages"`) on every input string, and in particular maps
`"/src/pages/view-booking#test"` to `"/src/pages/view-booking.html#test"` and
`"/src/pages#workshop"` to `"/src/pages/index.html#workshop"`. -/
theorem transformHref_matches_four_rules :
    (∀ href : List Char, transformHrefL href = specTransform basePathChars href) ∧
    transformHref "/src/pages/view-booking#test" = "/src/pages/view-booking.html#test" ∧
    transformHref "/src/pages#workshop" = "/src/pages/index.html#workshop" :=
  ⟨transformHrefL_eq_specTransform, by decide, by decide⟩

lemma startsWithL_self_append (pat ys : List Char) :
    startsWithL pat (pat ++ ys) = true := by
  induction pat with
  | nil => rfl
  | cons p ps ih => simp [startsWithL, ih]

lemma isSubstr_of_startsWithL {pat s : List Char} (h : startsWithL pat s = true) :
    isSubstr pat s = true := by
  cases s with
  | nil => simpa [isSubstr] using h
  | cons c cs => simp [isSubstr, h]

lemma isSubstr_append_left (xs : List Char) {pat ys : List Char}
    (h : isSubstr pat ys = true) : isSubstr pat (xs ++ ys) = true := by
  induction xs with
  | nil => simpa using h
  | cons x xs ih => simp [isSubstr, ih]

lemma containsHtml_sandwich (xs ys : List Char) :
    containsHtml (xs ++ (htmlChars ++ ys)) = true :=
  isSubstr_append_left xs (isSubstr_of_startsWithL (startsWithL_self_append htmlChars ys))

lemma indexHtml_split : "/index.html".data = "/index".data ++ htmlChars := by decide

lemma containsHtml_append_html (xs ys : List Char) :
    containsHtml (xs ++ htmlChars ++ ys) = true := by
  rw [List.append_assoc]
  exact containsHtml_sandwich xs ys

lemma containsHtml_base_index (ys : List Char) :
    containsHtml (basePathChars ++ "/index.html".data ++ ys) = true := by
  rw [indexHtml_split, ← List.append_assoc basePathChars]
  exact containsHtml_append_html _ _

lemma containsHtml_transformHrefL (href : List Char) (h : containsHtml href = false) :
    containsHtml (transformHrefL href) = true := by
  unfold transformHrefL
  rw [h]
  simp only [Bool.false_eq_true, if_false]
  split
  · split
    · exact containsHtml_base_index _
    · exact containsHtml_append_html _ _
  · split
    · simpa using containsHtml_base_index []
    · simpa using containsHtml_append_html href []

lemma transformHrefL_of_containsHtml {href : List Char} (h : containsHtml href = true) :
    transformHrefL href = href := by
  unfold transformHrefL
  rw [h]
  simp

/-- Claim C2: `transformHref` is idempotent — applying it to its own output
returns that output unchanged, because every output of the rewriting branches
contains `".html"` and is caught by the rule-1 guard. -/
theorem transformHref_idempotent :
    ∀ s : List Char, transformHrefL (transformHrefL s) = transformHrefL s := by
  intro s
  cases h : containsHtml s with
  | true =>
    rw [transformHrefL_of_containsHtml h]
    exact transformHrefL_of_containsHtml h
  | false => exact transformHrefL_of_containsHtml (containsHtml_transformHrefL s h)

/-- Claim C9: the parametrized `transformHref` variant, with its `BASE_PATH`
constant instantiated to `"/src/pages"`, computes exactly the same function as
the hardcoded `transformHref` of `fix-href.js`. -/
theorem transformHrefParam_eq_hardcoded :
    ∀ href : List Char, transformHrefParam basePathChars href = transformHrefL href := by
  intro href
  rfl

end FixHref

namespace Slider


lemma showSlide_drop {s : SliderState} (h : s.isTransitioning = true) (i : Option Int) :
    showSlide i s = Except.ok s := by
  unfold showSlide
  rw [h]
  simp

lemma showSlide_ok_of_idle {s : SliderState} {i : Int} (hIdle : s.isTransitioning = false)
    (h0 : 0 ≤ i) (h1 : i < (s.totalSlides : Int)) :
    showSlide (some i) s =
      Except.ok { s with isTransitioning := true, currentSlide := i, pendingSettle := true } := by
  unfold showSlide
  rw [hIdle]
  simp [h0, h1]

lemma nextSlide_ok {s : SliderState} (hIdle : s.isTransitioning = false) (hb : boundsOk s) :
    nextSlide s = Except.ok
      { s with isTransitioning := true,
               currentSlide := Int.tmod (s.currentSlide + 1) (s.totalSlides : Int),
               pendingSettle := true } := by
  obtain ⟨h0, h1⟩ := hb
  have hn0 : s.totalSlides ≠ 0 := by omega
  have hpos : (0 : Int) < (s.totalSlides : Int) := by omega
  have hmod : jsModIdx (s.currentSlide + 1) s.totalSlides
      = some (Int.tmod (s.currentSlide + 1) (s.totalSlides : Int)) := by
    simp [jsModIdx, hn0]
  unfold nextSlide
  rw [hmod]
  exact showSlide_ok_of_idle hIdle (Int.tmod_nonneg _ (by omega)) (Int.tmod_lt_of_pos _ hpos)

lemma prevSlide_ok {s : SliderState} (hIdle : s.isTransitioning = false) (hb : boundsOk s) :
    prevSlide s = Except.ok
      { s with isTransitioning := true,
               currentSlide := Int.tmod (s.currentSlide - 1 + (s.totalSlides : Int))
                                 (s.totalSlides : Int),
               pendingSettle := true } := by
  obtain ⟨h0, h1⟩ := hb
  have hn0 : s.totalSlides ≠ 0 := by omega
  have hpos : (0 : Int) < (s.totalSlides : Int) := by omega
  have hmod : jsModIdx (s.currentSlide - 1 + (s.totalSlides : Int)) s.totalSlides
      = some (Int.tmod (s.currentSlide - 1 + (s.totalSlides : Int)) (s.totalSlides : Int)) := by
    simp [jsModIdx, hn0]
  unfold prevSlide
  rw [hmod]
  exact showSlide_ok_of_idle hIdle (Int.tmod_nonneg _ (by omega)) (Int.tmod_lt_of_pos _ hpos)

lemma showSlide_nan {s : SliderState} (hIdle : s.isTransitioning = false) :
    showSlide none s = Except.error "TypeError: slides index is NaN" := by
  unfold showSlide
  rw [hIdle]
  simp

lemma showSlide_oob {s : SliderState} {j : Int} (hIdle : s.isTransitioning = false)
    (hcond : ¬(0 ≤ j ∧ j < (s.totalSlides : Int))) :
    showSlide (some j) s = Except.error "TypeError: slides index out of range" := by
  unfold showSlide
  rw [hIdle]
  simp only [Bool.false_eq_true, if_false]
  exact if_neg hcond

lemma showSlide_preserves_bounds {s t : SliderState} {i : Option Int}
    (hb : boundsOk s) (h : showSlide i s = Except.ok t) : boundsOk t := by
  cases ht : s.isTransitioning with
  | true =>
    rw [showSlide_drop ht i] at h
    injection h with h2
    subst h2
    exact hb
  | false =>
    cases i with
    | none =>
      rw [showSlide_nan ht] at h
      exact Except.noConfusion h
    | some j =>
      by_cases hcond : 0 ≤ j ∧ j < (s.totalSlides : Int)
      · rw [showSlide_ok_of_idle ht hcond.1 hcond.2] at h
        injection h with h2
        subst h2
        exact ⟨hcond.1, hcond.2⟩
      · rw [showSlide_oob ht hcond] at h
        exact Except.noConfusion h

lemma nextSlide_preserves_bounds {s t : SliderState}
    (hb : boundsOk s) (h : nextSlide s = Except.ok t) : boundsOk t :=
  showSlide_preserves_bounds hb h

lemma prevSlide_preserves_bounds {s t : SliderState}
    (hb : boundsOk s) (h : prevSlide s = Except.ok t) : boundsOk t :=
  showSlide_preserves_bounds hb h

lemma autoplayTick_ok {s : SliderState} (hb : boundsOk s) :
    ∃ t, autoplayTick s = Except.ok t ∧ boundsOk t := by
  obtain ⟨h0, h1⟩ := hb
  cases hIdle : s.isTransitioning with
  | true => exact ⟨s, by unfold autoplayTick; rw [hIdle]; simp, h0, h1⟩
  | false =>
    have hpos : (0 : Int) < (s.totalSlides : Int) := by omega
    refine ⟨{ s with isTransitioning := true,
                     currentSlide := Int.tmod (s.currentSlide + 1) (s.totalSlides : Int),
                     pendingSettle := true }, ?_, ?_, ?_⟩
    · unfold autoplayTick
      rw [hIdle]
      simp only [Bool.false_eq_true, if_false]
      exact nextSlide_ok hIdle ⟨h0, h1⟩
    · exact Int.tmod_nonneg _ (by omega)
    · exact Int.tmod_lt_of_pos _ hpos

lemma autoplayTick_preserves_bounds {s t : SliderState}
    (hb : boundsOk s) (h : autoplayTick s = Except.ok t) : boundsOk t := by
  obtain ⟨u, hu, hbu⟩ := autoplayTick_ok hb
  rw [hu] at h
  cases h
  exact hbu

lemma fireTicks_ok {k : Nat} : ∀ {s : SliderState}, boundsOk s →
    ∃ t, fireTicks k s = Except.ok t ∧ boundsOk t := by
  induction k with
  | zero => exact fun hb => ⟨_, rfl, hb⟩
  | succ n ih =>
    intro s hb
    obtain ⟨u, hu, hbu⟩ := autoplayTick_ok hb
    obtain ⟨t, ht, hbt⟩ := ih hbu
    refine ⟨t, ?_, hbt⟩
    unfold fireTicks
    rw [hu]
    exact ht

lemma fireTicks_one (u : SliderState) : fireTicks 1 u = autoplayTick u := by
  cases h : autoplayTick u with
  | ok v => simp [fireTicks, h]
  | error e => simp [fireTicks, h]

lemma tmod_prev_zero {n : Nat} (hn : 1 ≤ n) :
    Int.tmod ((0 : Int) - 1 + (n : Int)) ((n : Nat) : Int) = (n : Int) - 1 := by
  have h1 : (0 : Int) - 1 + (n : Int) = (n : Int) - 1 := by ring
  rw [h1, Int.tmod_eq_emod (by omega) (by omega), Int.emod_eq_of_lt (by omega) (by omega)]

lemma pauseAutoplay_clears {s : SliderState} (h : timersOk s) :
    (pauseAutoplay s).liveTimers = [] ∧ (pauseAutoplay s).autoplayInterval = none := by
  have h2 : s.liveTimers =
      (match s.autoplayInterval with | some id => [id] | none => []) := h
  unfold pauseAutoplay
  cases hai : s.autoplayInterval with
  | none =>
    rw [hai] at h2
    exact ⟨h2, hai⟩
  | some id =>
    rw [hai] at h2
    constructor
    · show s.liveTimers.filter (fun t => t != id) = []
      rw [h2]
      simp
    · rfl

lemma timersOk_startAutoplay {s : SliderState} (h : timersOk s) :
    timersOk (startAutoplay s) ∧ (startAutoplay s).liveTimers.length = 1 := by
  obtain ⟨hlt, _⟩ := pauseAutoplay_clears h
  unfold startAutoplay
  constructor
  · show (pauseAutoplay s).liveTimers ++ [(pauseAutoplay s).nextTimerId] = _
    rw [hlt]
    rfl
  · show ((pauseAutoplay s).liveTimers ++ [(pauseAutoplay s).nextTimerId]).length = 1
    rw [hlt]
    rfl


lemma pauseAutoplay_fields (s : SliderState) :
    (pauseAutoplay s).currentSlide = s.currentSlide ∧
    (pauseAutoplay s).totalSlides = s.totalSlides ∧
    (pauseAutoplay s).isTransitioning = s.isTransitioning := by
  unfold pauseAutoplay
  cases s.autoplayInterval <;> exact ⟨rfl, rfl, rfl⟩

lemma startAutoplay_fields (s : SliderState) :
    (startAutoplay s).currentSlide = s.currentSlide ∧
    (startAutoplay s).totalSlides = s.totalSlides ∧
    (startAutoplay s).isTransitioning = s.isTransitioning := by
  have hp := pauseAutoplay_fields s
  unfold startAutoplay
  exact ⟨hp.1, hp.2.1, hp.2.2⟩

/-- Claim C3 counterexample: constructing the carousel with an empty slide
collection is not rejected — the constructor returns an ordinary idle
controller state with zero slides, and the first navigation call then
performs the modulo-by-zero index computation and throws. -/
theorem mkSlider_zero_not_rejected :
    mkSlider 0 =
      { currentSlide := 0, totalSlides := 0, isTransitioning := false,
        pendingSettle := false, liveTimers := [0], autoplayInterval := some 0,
        nextTimerId := 1 } ∧
    nextSlide (mkSlider 0) = Except.error "TypeError: slides index is NaN" :=
  ⟨rfl, rfl⟩

/-- Claim C3 (amended): construction with an empty slide collection does not
fail fast — the constructor accepts zero slides, producing a normal idle
state, and navigation from that state performs modulo-by-zero arithmetic: the
next-index computation yields NaN and the slide access in `showSlide` throws,
for `nextSlide` and `prevSlide` alike. -/
theorem mkSlider_zero_modulo_by_zero :
    (mkSlider 0).totalSlides = 0 ∧ (mkSlider 0).currentSlide = 0 ∧
    (mkSlider 0).isTransitioning = false ∧
    jsModIdx ((mkSlider 0).currentSlide + 1) (mkSlider 0).totalSlides = none ∧
    nextSlide (mkSlider 0) = Except.error "TypeError: slides index is NaN" ∧
    prevSlide (mkSlider 0) = Except.error "TypeError: slides index is NaN" :=
  ⟨rfl, rfl, rfl, rfl, rfl, rfl⟩

/-- Claim C4: while a transition is in flight, any `showSlide`/`nextSlide`/
`prevSlide` call returns immediately with the entire state unchanged — dropped
calls are neither queued nor retried. -/
theorem transitioning_drops_navigation :
    ∀ (s : SliderState) (i : Option Int), s.isTransitioning = true →
      showSlide i s = Except.ok s ∧ nextSlide s = Except.ok s ∧ prevSlide s = Except.ok s := by
  intro s i h
  refine ⟨showSlide_drop h i, ?_, ?_⟩
  · unfold nextSlide
    exact showSlide_drop h _
  · unfold prevSlide
    exact showSlide_drop h _

/-- Claim C4 witness: the dropped-call property at a concrete mid-transition
three-slide state. -/
theorem transitioning_drops_navigation_witness :
    showSlide (some 0) demoTransitioning = Except.ok demoTransitioning ∧
    nextSlide demoTransitioning = Except.ok demoTransitioning ∧
    prevSlide demoTransitioning = Except.ok demoTransitioning :=
  transitioning_drops_navigation demoTransitioning (some 0) rfl

/-- Claim C5: on three slides starting at index 0, three `nextSlide` calls
(each followed by the settle delay elapsing) visit indices 1, 2 and wrap back
to 0; and in general, once the settle callback has fired, the lock is
released, so a following `nextSlide`/`prevSlide` succeeds and actually enters
a new transition. -/
theorem next_wrap_and_lock_release :
    ((do
        let a ← nextSlide (mkSlider 3)
        let b ← nextSlide (settleElapsed a)
        let c ← nextSlide (settleElapsed b)
        pure (a.currentSlide, b.currentSlide, c.currentSlide)) =
      Except.ok ((1 : Int), (2 : Int), (0 : Int))) ∧
    (∀ s : SliderState, s.pendingSettle = true → boundsOk s →
      (settleElapsed s).isTransitioning = false ∧
      (∃ t, nextSlide (settleElapsed s) = Except.ok t ∧ t.isTransitioning = true) ∧
      (∃ t, prevSlide (settleElapsed s) = Except.ok t ∧ t.isTransitioning = true)) := by
  constructor
  · rfl
  · intro s hp hb
    have hse : settleElapsed s =
        { s with isTransitioning := false, pendingSettle := false } := by
      unfold settleElapsed
      rw [hp]
      simp
    have hbse : boundsOk (settleElapsed s) := by
      rw [hse]
      exact hb
    have hIdle : (settleElapsed s).isTransitioning = false := by
      rw [hse]
    exact ⟨hIdle, ⟨_, nextSlide_ok hIdle hbse, rfl⟩, ⟨_, prevSlide_ok hIdle hbse, rfl⟩⟩

/-- Claim C5 witness: the lock-release property at a concrete mid-transition
state with a pending settle callback. -/
theorem next_wrap_and_lock_release_witness :
    (settleElapsed demoTransitioning).isTransitioning = false ∧
    (∃ t, nextSlide (settleElapsed demoTransitioning) = Except.ok t ∧
      t.isTransitioning = true) ∧
    (∃ t, prevSlide (settleElapsed demoTransitioning) = Except.ok t ∧
      t.isTransitioning = true) :=
  next_wrap_and_lock_release.2 demoTransitioning rfl ⟨by decide, by decide⟩

/-- Claim C6: `startAutoplay` never leaves duplicate timers — called twice in
a row (from any state whose live timers are the one the controller tracks),
exactly one interval timer is live, so advancing time by one autoplay interval
runs the tick callback exactly once, which calls `nextSlide` exactly once when
idle; a tick firing mid-transition is silently skipped, not queued. -/
theorem startAutoplay_single_timer :
    ∀ s : SliderState, timersOk s →
      (startAutoplay (startAutoplay s)).liveTimers.length = 1 ∧
      elapseInterval (startAutoplay (startAutoplay s)) =
        autoplayTick (startAutoplay (startAutoplay s)) ∧
      ((startAutoplay (startAutoplay s)).isTransitioning = false →
        elapseInterval (startAutoplay (startAutoplay s)) =
          nextSlide (startAutoplay (startAutoplay s))) ∧
      (∀ u : SliderState, u.isTransitioning = true → autoplayTick u = Except.ok u) := by
  intro s h
  have h1 := timersOk_startAutoplay h
  have h2 := timersOk_startAutoplay h1.1
  have helapse : elapseInterval (startAutoplay (startAutoplay s)) =
      autoplayTick (startAutoplay (startAutoplay s)) := by
    unfold elapseInterval
    rw [h2.2]
    exact fireTicks_one _
  refine ⟨h2.2, helapse, ?_, ?_⟩
  · intro hIdle
    rw [helapse]
    unfold autoplayTick
    rw [hIdle]
    simp
  · intro u hu
    unfold autoplayTick
    rw [hu]
    simp

/-- Claim C6 witness: a double `startAutoplay` from a concrete well-formed
idle state leaves one live timer, and a tick at a concrete mid-transition
state is skipped. -/
theorem startAutoplay_single_timer_witness :
    (startAutoplay (startAutoplay demoIdle)).liveTimers.length = 1 ∧
    autoplayTick demoTransitioning = Except.ok demoTransitioning :=
  ⟨(startAutoplay_single_timer demoIdle rfl).1,
   (startAutoplay_single_timer demoIdle rfl).2.2.2 demoTransitioning rfl⟩

/-- Claim C7: for a carousel constructed with at least one slide the index
invariant `currentIndex ∈ [0, N)` holds initially and is preserved by every
operation (`showSlide`, `nextSlide`, `prevSlide`, the autoplay tick,
`startAutoplay`, `pauseAutoplay`, and the settle callback); navigation wraps
rather than going out of bounds, and `prevSlide` from index 0 lands on
index `N - 1`. -/
theorem currentSlide_invariant :
    ∀ n : Nat, 1 ≤ n →
      ((mkSlider n).currentSlide = 0 ∧ boundsOk (mkSlider n)) ∧
      (∀ (s t : SliderState) (i : Option Int),
        boundsOk s → showSlide i s = Except.ok t → boundsOk t) ∧
      (∀ s t : SliderState, boundsOk s → nextSlide s = Except.ok t → boundsOk t) ∧
      (∀ s t : SliderState, boundsOk s → prevSlide s = Except.ok t → boundsOk t) ∧
      (∀ s t : SliderState, boundsOk s → autoplayTick s = Except.ok t → boundsOk t) ∧
      (∀ s : SliderState, boundsOk s →
        boundsOk (startAutoplay s) ∧ boundsOk (pauseAutoplay s) ∧ boundsOk (settleElapsed s)) ∧
      (∀ s : SliderState, s.isTransitioning = false → s.currentSlide = 0 → s.totalSlides = n →
        prevSlide s = Except.ok
          { s with isTransitioning := true, pendingSettle := true,
                   currentSlide := (n : Int) - 1 }) := by
  intro n hn
  refine ⟨⟨rfl, le_refl 0, ?_⟩, fun s t i => showSlide_preserves_bounds,
    fun s t => nextSlide_preserves_bounds, fun s t => prevSlide_preserves_bounds,
    fun s t => autoplayTick_preserves_bounds, ?_, ?_⟩
  · show (0 : Int) < (n : Int)
    omega
  · intro s hb
    obtain ⟨h0, h1⟩ := hb
    have hsf := startAutoplay_fields s
    have hpf := pauseAutoplay_fields s
    refine ⟨⟨?_, ?_⟩, ⟨?_, ?_⟩, ?_⟩
    · rw [hsf.1]
      exact h0
    · rw [hsf.1, hsf.2.1]
      exact h1
    · rw [hpf.1]
      exact h0
    · rw [hpf.1, hpf.2.1]
      exact h1
    · unfold settleElapsed
      split
      · exact ⟨h0, h1⟩
      · exact ⟨h0, h1⟩
  · intro s hIdle hcur hN
    have hb2 : boundsOk s := by
      constructor
      · rw [hcur]
      · rw [hcur, hN]
        omega
    have h2 := prevSlide_ok hIdle hb2
    rw [hcur, hN] at h2
    rw [tmod_prev_zero hn] at h2
    rw [hN]
    exact h2

/-- Claim C7 witness: the invariant at a concrete three-slide carousel, and
the wrap of `prevSlide` from index 0 to index 2 there. -/
theorem currentSlide_invariant_witness :
    (mkSlider 3).currentSlide = 0 ∧ boundsOk (mkSlider 3) ∧
    prevSlide demoIdle = Except.ok
      { demoIdle with isTransitioning := true, pendingSettle := true,
                      currentSlide := ((3 : Nat) : Int) - 1 } :=
  ⟨(currentSlide_invariant 3 (by decide)).1.1, (currentSlide_invariant 3 (by decide)).1.2,
   (currentSlide_invariant 3 (by decide)).2.2.2.2.2.2 demoIdle rfl rfl rfl⟩

/-- Claim C8: neither component throws under its documented contract — the
href transformation is a total function of its input string, and on a carousel
whose index is in bounds (so in particular with at least one slide) every
navigation operation, the autoplay tick and a full autoplay interval complete
with a normal result, never a thrown error. -/
theorem components_never_throw :
    (∀ href : List Char, ∃ out : List Char, FixHref.transformHrefL href = out) ∧
    (∀ s : SliderState, boundsOk s →
      (∃ t, nextSlide s = Except.ok t) ∧ (∃ t, prevSlide s = Except.ok t) ∧
      (∃ t, autoplayTick s = Except.ok t) ∧ (∃ t, elapseInterval s = Except.ok t)) := by
  constructor
  · exact fun href => ⟨FixHref.transformHrefL href, rfl⟩
  · intro s hb
    refine ⟨?_, ?_, ?_, ?_⟩
    · cases ht : s.isTransitioning with
      | true =>
        refine ⟨s, ?_⟩
        unfold nextSlide
        exact showSlide_drop ht _
      | false => exact ⟨_, nextSlide_ok ht hb⟩
    · cases ht : s.isTransitioning with
      | true =>
        refine ⟨s, ?_⟩
        unfold prevSlide
        exact showSlide_drop ht _
      | false => exact ⟨_, prevSlide_ok ht hb⟩
    · obtain ⟨t, h, _⟩ := autoplayTick_ok hb
      exact ⟨t, h⟩
    · obtain ⟨t, h, _⟩ := @fireTicks_ok s.liveTimers.length s hb
      exact ⟨t, h⟩

/-- Claim C8 witness: no operation throws at a concrete idle three-slide
state. -/
theorem components_never_throw_witness :
    (∃ t, nextSlide demoIdle = Except.ok t) ∧ (∃ t, prevSlide demoIdle = Except.ok t) ∧
    (∃ t, autoplayTick demoIdle = Except.ok t) ∧
    (∃ t, elapseInterval demoIdle = Except.ok t) :=
  components_never_throw.2 demoIdle ⟨by decide, by decide⟩

/-- Claim C10: calling `showSlide` with the current index from an idle state
is not a no-op — it still enters the transitioning state with a pending
settle callback; in particular on a single-slide carousel `nextSlide`
computes index 0 and re-transitions to the sole slide. -/
theorem goTo_current_index_not_noop :
    ∀ s : SliderState, s.isTransitioning = false → boundsOk s →
      showSlide (some s.currentSlide) s =
        Except.ok { s with isTransitioning := true, pendingSettle := true } ∧
      (s.totalSlides = 1 →
        nextSlide s = Except.ok
          { s with isTransitioning := true, pendingSettle := true, currentSlide := 0 }) := by
  intro s hIdle hb
  constructor
  · exact showSlide_ok_of_idle hIdle hb.1 hb.2
  · intro h1
    have hcur : s.currentSlide = 0 := by
      obtain ⟨ha, hc⟩ := hb
      rw [h1] at hc
      omega
    have h2 := nextSlide_ok hIdle hb
    rw [hcur, h1] at h2
    have h3 : Int.tmod ((0 : Int) + 1) ((1 : Nat) : Int) = 0 := by decide
    rw [h3] at h2
    rw [h1]
    exact h2

/-- Claim C10 witness: re-transition to the sole slide of a concrete
single-slide carousel. -/
theorem goTo_current_index_not_noop_witness :
    showSlide (some demoSingle.currentSlide) demoSingle =
      Except.ok { demoSingle with isTransitioning := true, pendingSettle := true } ∧
    nextSlide demoSingle = Except.ok
      { demoSingle with isTransitioning := true, pendingSettle := true, currentSlide := 0 } :=
  ⟨(goTo_current_index_not_noop demoSingle rfl ⟨by decide, by decide⟩).1,
   (goTo_current_index_not_noop demoSingle rfl ⟨by decide, by decide⟩).2 rfl⟩

end Slider
